import Mathlib

/-!
Verification of the HolidayMatch matching core against its design document.

The Python sources are shallowly embedded: each method of `Matcher`
(src/features/matcher/matcher.py), the `AppState.stage` setter (src/lib/states.py),
the Pydantic validation of `Destination` records
(src/features/travelagent/models.py, src/features/travelagent/recommendation_engine.py)
and the image-enrichment batch (src/lib/utils.py) become Lean functions.
A method that can raise is modelled as returning the object state after the call
together with an optional raised error, mirroring Python's behaviour that
mutations performed before a raise persist on the object.
-/

namespace HolidayMatch

/-- Python runtime errors raised by the modelled code paths: the explicit
`raise TypeError(...)` calls, and the `AttributeError` produced by accessing
`.name` on `None`. -/
inductive PyErr
  | typeError
  | attributeError
  deriving DecidableEq, Repr

/-- Runtime shape of a `Destination` record (src/features/travelagent/models.py,
lines 5-18).  Every field is declared `str` / `List[str]` / `bool` in the Pydantic
model, including `image_url : str`; the enrichment step in src/lib/utils.py later
overwrites `image_url` and may assign `None` to it (Pydantic does not re-validate
assignments by default), so the runtime value of that field is `Option String`. -/
structure Destination where
  name : String
  description : String
  climate : String
  activities : List String
  budget : String
  travel_tips : String
  best_time_to_visit : List String
  currency : String
  language : String
  trending : Bool
  transportation : List String
  image_url : Option String
  deriving DecidableEq, Repr

/-- State owned by a `Matcher` (src/features/matcher/matcher.py): the private
`__current_index` cursor (only ever set to 0 or incremented by one, hence a
natural number), the private `__destination_recommendations` list, and the
public `disliked_destinations` history. -/
structure Matcher where
  current_index : Nat
  destination_recommendations : List Destination
  disliked_destinations : List String
  deriving DecidableEq, Repr

/-- Embedding of `Matcher.__init__(recommendations)` (matcher.py, lines 10-13):
index 0, the given list, empty dislike history. -/
def Matcher.init (recommendations : List Destination) : Matcher :=
  { current_index := 0
    destination_recommendations := recommendations
    disliked_destinations := [] }

/-- Embedding of `Matcher.get_index` (matcher.py, lines 15-17). -/
def Matcher.get_index (m : Matcher) : Nat := m.current_index

/-- Embedding of `Matcher.get_recommendations_count` (matcher.py, lines 19-21). -/
def Matcher.get_recommendations_count (m : Matcher) : Nat :=
  m.destination_recommendations.length

/-- Embedding of `Matcher.list_suggestions` (matcher.py, lines 44-46). -/
def Matcher.list_suggestions (m : Matcher) : List Destination :=
  m.destination_recommendations

/-- Argument passed to a Python method whose contract demands a list:
either an actual list of destinations, or any value for which
`isinstance(suggestions, list)` is false. -/
inductive PyListArg
  | list (l : List Destination)
  | notList
  deriving Repr

/-- Embedding of `Matcher.replace_suggestions` (matcher.py, lines 23-32):
raises `TypeError` on a non-list argument (state untouched); otherwise replaces
the recommendation list wholesale and resets the index to 0. -/
def Matcher.replace_suggestions (m : Matcher) (suggestions : PyListArg) :
    Matcher × Option PyErr :=
  match suggestions with
  | .notList => (m, some .typeError)
  | .list l =>
      ({ m with destination_recommendations := l, current_index := 0 }, none)

/-- Embedding of `Matcher.add_suggestions` (matcher.py, lines 34-42):
raises `TypeError` on a non-list argument (state untouched); otherwise extends
the recommendation list in place, leaving index and dislike history alone. -/
def Matcher.add_suggestions (m : Matcher) (suggestions : PyListArg) :
    Matcher × Option PyErr :=
  match suggestions with
  | .notList => (m, some .typeError)
  | .list l =>
      ({ m with
          destination_recommendations := m.destination_recommendations ++ l },
        none)

/-- Embedding of `Matcher.suggest` (matcher.py, lines 48-57): reads
`recommendations[index]`, catching `IndexError` and returning `None`; with a
natural-number index this is exactly `List.get?`. -/
def Matcher.suggest (m : Matcher) : Option Destination :=
  m.destination_recommendations.get? m.current_index

/-- Embedding of `Matcher.dislike` (matcher.py, lines 59-66).  The method first
evaluates `self.suggest().name`: when `suggest()` is `None` this raises
`AttributeError` before any mutation.  Otherwise it appends that name to
`disliked_destinations` and then increments the index if it is still below the
list length. -/
def Matcher.dislike (m : Matcher) : Matcher × Option PyErr :=
  match m.suggest with
  | none => (m, some .attributeError)
  | some d =>
      let m1 :=
        { m with disliked_destinations := m.disliked_destinations ++ [d.name] }
      let m2 :=
        if m1.current_index < m1.destination_recommendations.length then
          { m1 with current_index := m1.current_index + 1 }
        else m1
      (m2, none)

/-- One user-driven operation on a `Matcher`, as invoked by the stage handlers
in src/lib/handlers.py. -/
inductive MatcherOp
  | suggest
  | dislike
  | replace (arg : PyListArg)
  | add (arg : PyListArg)

/-- Matcher state after one operation.  A raised error leaves the state exactly
as the method returned it (no mutation precedes any raise in matcher.py);
`suggest` never mutates. -/
def Matcher.step (m : Matcher) (op : MatcherOp) : Matcher :=
  match op with
  | .suggest => m
  | .dislike => m.dislike.1
  | .replace a => (m.replace_suggestions a).1
  | .add a => (m.add_suggestions a).1

/-- Matcher state after a sequence of operations. -/
def Matcher.run : Matcher → List MatcherOp → Matcher
  | m, [] => m
  | m, op :: rest => Matcher.run (m.step op) rest

/-- Names the design document says the dislike history must collect along a run:
one entry, the current suggestion's `name`, per `dislike()` invocation that
finds a current suggestion, in invocation order (spec section 3 and section 8,
Exclusion persistence). -/
def dislikedTrace : Matcher → List MatcherOp → List String
  | _, [] => []
  | m, .dislike :: rest =>
      (match m.suggest with
        | some d => [d.name]
        | none => []) ++ dislikedTrace (m.step .dislike) rest
  | m, op :: rest => dislikedTrace (m.step op) rest

/-- Helper destination rendering concrete test states readable. -/
def mkDest (n : String) : Destination :=
  { name := n
    description := "d"
    climate := "c"
    activities := []
    budget := "b"
    travel_tips := "t"
    best_time_to_visit := []
    currency := "cur"
    language := "l"
    trending := false
    transportation := []
    image_url := none }

/-- Application stages (src/lib/enums.py, lines 4-11). -/
inductive Stage
  | START
  | USER_PREFERENCES
  | RETRIEVE_SUGGESTIONS
  | MATCHER
  | PRESENT_DETAILS
  | RETRIEVE_NEW_SUGGESTIONS
  deriving DecidableEq, Repr

/-- String values of the Stage enumeration members (src/lib/enums.py). -/
def Stage.value : Stage → String
  | .START => "start"
  | .USER_PREFERENCES => "user_preferences"
  | .RETRIEVE_SUGGESTIONS => "retrieve_suggestions"
  | .MATCHER => "matcher"
  | .PRESENT_DETAILS => "present_details"
  | .RETRIEVE_NEW_SUGGESTIONS => "retrieve_new_suggestions"

/-- User information record (src/features/travelagent/models.py, lines 20-24). -/
structure UserInfo where
  name : String
  age : Int
  gender : String
  deriving DecidableEq, Repr

/-- Opaque preference bag: question title mapped to answer, carried by the
application state but never inspected by it (spec section 3). -/
def Preferences : Type := List (String × String)

/-- State owned by an `AppState` (src/lib/states.py): the private `__anonymous`
flag, the validated `stage`, and the optional session context.  The `itinerary`
field is declared but never populated in the source. -/
structure AppState where
  anonymous : Bool
  stage : Stage
  user_preferences : Option Preferences
  matched_destination : Option Destination
  itinerary : Option Unit
  user_info : Option UserInfo

/-- Embedding of `AppState.__init__` (states.py, lines 16-22): anonymous,
stage `START` (accepted by the stage setter because it is a Stage member),
everything else unset. -/
def AppState.init : AppState :=
  { anonymous := true
    stage := .START
    user_preferences := none
    matched_destination := none
    itinerary := none
    user_info := none }

/-- Argument passed to the stage setter: either an actual Stage member, or any
value for which `isinstance(stage, Stage)` is false. -/
inductive StageSetArg
  | stage (s : Stage)
  | notStage

/-- Embedding of the `AppState.stage` setter (states.py, lines 38-50): stores a
Stage member, and raises `TypeError` on anything else, touching nothing. -/
def AppState.set_stage (st : AppState) (v : StageSetArg) : AppState × Option PyErr :=
  match v with
  | .stage s => ({ st with stage := s }, none)
  | .notStage => (st, some .typeError)

/-- Raw JSON object for one destination as decoded from the model response in
`RecommendationEngine.generate_destination_recommendations`
(src/features/travelagent/recommendation_engine.py, lines 85-100): each declared
field is either present with the declared type, or absent/null. -/
structure DestinationJson where
  name : Option String
  description : Option String
  climate : Option String
  activities : Option (List String)
  budget : Option String
  travel_tips : Option String
  best_time_to_visit : Option (List String)
  currency : Option String
  language : Option String
  trending : Option Bool
  transportation : Option (List String)
  image_url : Option String
  deriving DecidableEq, Repr

/-- Pydantic treatment of one declared-required field: present values pass,
absent or null values fail validation with a field-required error. -/
def req {α : Type} (o : Option α) : Except String α :=
  match o with
  | some a => .ok a
  | none => .error "Field required"

/-- Embedding of Pydantic validation of a single `Destination`
(src/features/travelagent/models.py, lines 5-18): every declared field,
`image_url : str` included, is required; any missing field fails validation. -/
def validateDestination (j : DestinationJson) : Except String Destination := do
  let n ← req j.name
  let de ← req j.description
  let c ← req j.climate
  let a ← req j.activities
  let b ← req j.budget
  let t ← req j.travel_tips
  let bt ← req j.best_time_to_visit
  let cu ← req j.currency
  let la ← req j.language
  let tr ← req j.trending
  let tp ← req j.transportation
  let iu ← req j.image_url
  pure
    { name := n
      description := de
      climate := c
      activities := a
      budget := b
      travel_tips := t
      best_time_to_visit := bt
      currency := cu
      language := la
      trending := tr
      transportation := tp
      image_url := some iu }

/-- Embedding of `TypeAdapter(List[Destination]).validate_python`
(recommendation_engine.py, line 90): validates every record and rejects the
whole batch as soon as any record fails. -/
def validateBatch (js : List DestinationJson) : Except String (List Destination) :=
  js.mapM validateDestination

/-- Photo object shape consumed by utils.py: the nested access
`first_photo["images"]["original"]["url"]`. -/
structure PhotoVariant where
  url : String
  deriving DecidableEq, Repr

/-- Sizes dictionary of one photo; only `original` is consumed. -/
structure PhotoSizes where
  original : PhotoVariant
  deriving DecidableEq, Repr

/-- One photo entry of the photo response. -/
structure Photo where
  images : PhotoSizes
  deriving DecidableEq, Repr

/-- Photo lookup response: a JSON object whose `data` key, when present, holds
the list of photos (`"data" in photos` is `data = some l`, the truthiness of
`photos["data"]` is `l` being non-empty). -/
structure PhotosResponse where
  data : Option (List Photo)
  deriving DecidableEq, Repr

/-- Modelled from the spec: the travel agent method `get_location_photo_async`
awaited by src/lib/utils.py is not part of the sources under src/ (the `Agent`
class constructed in src/app.py with `openai_key`/`tripadvisor_key` is absent;
src/features/travelagent/agent.py has no such method).  Spec section 6 fixes its
contract: the location data source is independently failable and the core sees
"absence of data, never a crash", so the lookup is any function from a
destination name to an optional photo response (a falsy response standing for
no data or a recovered failure). -/
def LocationPhotoLookup : Type := String → Option PhotosResponse

/-- URL that utils.py extracts from a lookup result: the first photo's
original-resolution URL when the response is truthy, carries a `data` key and
that list is non-empty; nothing otherwise. -/
def firstPhotoUrl (photos : Option PhotosResponse) : Option String :=
  match photos with
  | some resp =>
      match resp.data with
      | some (first_photo :: _) => some first_photo.images.original.url
      | _ => none
  | none => none

/-- Embedding of the inner coroutine `fetch_image` of
`fetch_recommendations_with_images_async` (src/lib/utils.py, lines 30-37):
awaits the photo lookup for the recommendation's name and overwrites
`image_url` with the first photo's original URL, or with `None` when no image
is found. -/
def fetch_image (lookup : LocationPhotoLookup) (recommendation : Destination) :
    Destination :=
  match lookup recommendation.name with
  | some photos =>
      match photos.data with
      | some (first_photo :: _) =>
          { recommendation with
              image_url := some first_photo.images.original.url }
      | _ => { recommendation with image_url := none }
  | none => { recommendation with image_url := none }

/-- Embedding of `fetch_recommendations_with_images_async`
(src/lib/utils.py, lines 20-41): `asyncio.gather` over one `fetch_image` task
per recommendation, joined once all complete.  Each task updates only its own
recommendation, the lookup never raises (see `LocationPhotoLookup`), and the
result order is the input order, so the join is an independent per-element
update of the batch. -/
def fetch_recommendations_with_images_async (lookup : LocationPhotoLookup)
    (destination_recommendations : List Destination) : List Destination :=
  destination_recommendations.map (fetch_image lookup)

/-! Helper lemmas shared by the correctness theorems. -/

/-- Dislike history after one `dislike` call: the current suggestion's name is
appended when there is one, nothing changes otherwise. -/
lemma dislike_fst_disliked (m : Matcher) :
    m.dislike.1.disliked_destinations
      = m.disliked_destinations
        ++ (match m.suggest with | some d => [d.name] | none => []) := by
  cases h : m.suggest with
  | none => simp [Matcher.dislike, h]
  | some d =>
      simp only [Matcher.dislike, h]
      split <;> simp

/-- Dislike history along a run: the starting history, extended by the trace of
successful dislikes. -/
lemma run_disliked_eq (ops : List MatcherOp) :
    ∀ m : Matcher,
      (m.run ops).disliked_destinations
        = m.disliked_destinations ++ dislikedTrace m ops := by
  induction ops with
  | nil => intro m; simp [Matcher.run, dislikedTrace]
  | cons op rest ih =>
      intro m
      cases op with
      | suggest =>
          simpa [Matcher.run, Matcher.step, dislikedTrace] using ih m
      | dislike =>
          have h1 := ih (m.step .dislike)
          rw [Matcher.run, h1, dislikedTrace]
          rw [show (Matcher.step m .dislike) = m.dislike.1 from rfl,
            dislike_fst_disliked]
          cases h : m.suggest <;> simp [h]
      | replace a =>
          have h1 := ih (m.step (.replace a))
          have ht : dislikedTrace m (.replace a :: rest)
              = dislikedTrace (m.step (.replace a)) rest := rfl
          rw [Matcher.run, h1, ht]
          cases a <;>
            simp [Matcher.step, Matcher.replace_suggestions]
      | add a =>
          have h1 := ih (m.step (.add a))
          have ht : dislikedTrace m (.add a :: rest)
              = dislikedTrace (m.step (.add a)) rest := rfl
          rw [Matcher.run, h1, ht]
          cases a <;>
            simp [Matcher.step, Matcher.add_suggestions]

/-- When a suggestion is present, the cursor is strictly below the list length. -/
lemma suggest_some_lt (m : Matcher) (d : Destination) (h : m.suggest = some d) :
    m.current_index < m.destination_recommendations.length :=
  List.get?_eq_some.mp h |>.1

/-- Every single operation preserves the cursor bound. -/
lemma step_cursor_le (m : Matcher) (op : MatcherOp)
    (h : m.current_index ≤ m.destination_recommendations.length) :
    (m.step op).current_index ≤ (m.step op).destination_recommendations.length := by
  cases op with
  | suggest => exact h
  | dislike =>
      cases hs : m.suggest with
      | none => simpa [Matcher.step, Matcher.dislike, hs] using h
      | some d =>
          have hlt := suggest_some_lt m d hs
          simp only [Matcher.step, Matcher.dislike, hs]
          split <;> simpa using hlt
  | replace a =>
      cases a <;> simp [Matcher.step, Matcher.replace_suggestions] <;> exact h
  | add a =>
      cases a with
      | notList => simpa [Matcher.step, Matcher.add_suggestions] using h
      | list l =>
          simp only [Matcher.step, Matcher.add_suggestions, List.length_append]
          omega

/-- A whole run preserves the cursor bound. -/
lemma run_cursor_le (ops : List MatcherOp) :
    ∀ m : Matcher, m.current_index ≤ m.destination_recommendations.length →
      (m.run ops).current_index ≤ (m.run ops).destination_recommendations.length := by
  induction ops with
  | nil => intro m h; simpa [Matcher.run] using h
  | cons op rest ih =>
      intro m h
      rw [Matcher.run]
      exact ih (m.step op) (step_cursor_le m op h)

/-- Image URL produced by one enrichment task is exactly the URL extracted from
the lookup response for that destination's name. -/
lemma fetch_image_image_url (lookup : LocationPhotoLookup) (r : Destination) :
    (fetch_image lookup r).image_url = firstPhotoUrl (lookup r.name) := by
  cases h : lookup r.name with
  | none => simp [fetch_image, firstPhotoUrl, h]
  | some resp =>
      cases hd : resp.data with
      | none => simp [fetch_image, firstPhotoUrl, h, hd]
      | some ps => cases ps <;> simp [fetch_image, firstPhotoUrl, h, hd]

/-- Required-field check composed with a continuation succeeds exactly when the
field is present and the continuation succeeds on it. -/
lemma req_bind_isOk {α β : Type} (o : Option α) (f : α → Except String β) :
    (req o >>= f).isOk = true ↔ ∃ a, o = some a ∧ (f a).isOk = true := by
  cases o <;> simp [req, Bind.bind, Except.bind, Except.isOk, Except.toBool]

/-- Required-field check composed with a continuation returns a value exactly
when the field is present and the continuation returns that value on it. -/
lemma req_bind_ok {α β : Type} (o : Option α) (f : α → Except String β) (b : β) :
    req o >>= f = .ok b ↔ ∃ a, o = some a ∧ f a = .ok b := by
  cases o <;> simp [req, Bind.bind, Except.bind]

/-! Theorems settling the claims. -/

/-- C1.  Exclusion persistence: along every sequence of Matcher operations the
dislike history equals its starting value followed by exactly the name of the
current suggestion of every successful `dislike()` invocation, in invocation
order; in particular `replace_suggestions` never removes, reorders or resets
any entry of it, whether it is given a list or raises on a non-list. -/
theorem exclusion_persistence :
    (∀ (m : Matcher) (a : PyListArg),
      (m.replace_suggestions a).1.disliked_destinations
        = m.disliked_destinations) ∧
    (∀ (m : Matcher) (ops : List MatcherOp),
      (m.run ops).disliked_destinations
        = m.disliked_destinations ++ dislikedTrace m ops) := by
  constructor
  · intro m a
    cases a <;> rfl
  · intro m ops
    exact run_disliked_eq ops m

/-- C2.  Cursor bounds: the cursor is a natural number (hence never negative),
it is within `0 ≤ cursor ≤ length` at construction, that bound is preserved by
every single operation and by every operation sequence, and a `dislike()` call
never decreases the cursor. -/
theorem cursor_bounds :
    (∀ recs : List Destination,
      (Matcher.init recs).current_index
        ≤ (Matcher.init recs).destination_recommendations.length) ∧
    (∀ (m : Matcher) (op : MatcherOp),
      m.current_index ≤ m.destination_recommendations.length →
      (m.step op).current_index ≤ (m.step op).destination_recommendations.length) ∧
    (∀ (recs : List Destination) (ops : List MatcherOp),
      ((Matcher.init recs).run ops).current_index
        ≤ ((Matcher.init recs).run ops).destination_recommendations.length) ∧
    (∀ m : Matcher, m.current_index ≤ m.dislike.1.current_index) := by
  refine ⟨fun recs => Nat.zero_le _, step_cursor_le, ?_, ?_⟩
  · intro recs ops
    exact run_cursor_le ops (Matcher.init recs) (Nat.zero_le _)
  · intro m
    cases hs : m.suggest with
    | none => simp [Matcher.dislike, hs]
    | some d =>
        simp only [Matcher.dislike, hs]
        split <;> simp

/-- C2 witness: the one-step preservation part applied at a concrete state. -/
theorem cursor_bounds_witness :
    ((Matcher.init [mkDest "A"]).step .dislike).current_index
      ≤ ((Matcher.init [mkDest "A"]).step .dislike).destination_recommendations.length :=
  cursor_bounds.2.1 (Matcher.init [mkDest "A"]) .dislike (by decide)

/-- C3.  Suggest/dislike coupling: whenever `suggest()` yields no Destination,
`dislike()` raises (the `AttributeError` from `None.name`); it never returns
normally. -/
theorem dislike_exhausted_raises (m : Matcher) (h : m.suggest = none) :
    m.dislike.2 = some PyErr.attributeError := by
  simp [Matcher.dislike, h]

/-- C3 witness: disliking on a Matcher built from the empty list raises. -/
theorem dislike_exhausted_raises_witness :
    (Matcher.init []).dislike.2 = some PyErr.attributeError :=
  dislike_exhausted_raises (Matcher.init []) rfl

/-- C4.  Totality and purity of `suggest`: it returns the Destination at the
cursor when the cursor is in bounds, returns nothing when the cursor is at or
past the end (so it never raises), and a `suggest` operation leaves the whole
Matcher state unchanged. -/
theorem suggest_total_pure (m : Matcher) :
    (∀ h : m.current_index < m.destination_recommendations.length,
      m.suggest = some (m.destination_recommendations.get
        ⟨m.current_index, h⟩)) ∧
    (m.destination_recommendations.length ≤ m.current_index →
      m.suggest = none) ∧
    m.step .suggest = m := by
  refine ⟨fun h => ?_, fun h => ?_, rfl⟩
  · simp [Matcher.suggest, List.get?_eq_get h]
  · exact List.get?_eq_none.mpr h

/-- Concrete Matcher with two fresh recommendations. -/
def mTwo : Matcher :=
  { current_index := 0
    destination_recommendations := [mkDest "A", mkDest "B"]
    disliked_destinations := [] }

/-- Concrete exhausted Matcher: the cursor sits at the end of a two-element
list and two names are already in the dislike history. -/
def mExhausted : Matcher :=
  { current_index := 2
    destination_recommendations := [mkDest "A", mkDest "B"]
    disliked_destinations := ["A", "B"] }

/-- C4 witness: in-bounds read, exhausted read and purity at concrete states. -/
theorem suggest_total_pure_witness :
    mTwo.suggest = some (mkDest "A") ∧ mExhausted.suggest = none ∧
      mTwo.step .suggest = mTwo :=
  ⟨(suggest_total_pure mTwo).1 (by decide),
    (suggest_total_pure mExhausted).2.1 (by decide),
    (suggest_total_pure mTwo).2.2⟩

/-- C5.  Replace contract: with a list argument, `replace_suggestions` replaces
the recommendations wholesale, resets the cursor to 0 and raises nothing, so
the next `suggest()` is the head of the new list (nothing when it is empty);
with a non-list argument it raises `TypeError` and touches nothing. -/
theorem replace_suggestions_contract (m : Matcher) :
    (∀ l : List Destination,
      m.replace_suggestions (.list l)
        = ({ m with destination_recommendations := l, current_index := 0 },
            none) ∧
      (m.replace_suggestions (.list l)).1.suggest = l.head?) ∧
    m.replace_suggestions .notList = (m, some PyErr.typeError) := by
  refine ⟨fun l => ⟨rfl, ?_⟩, rfl⟩
  cases l <;> simp [Matcher.replace_suggestions, Matcher.suggest]

/-- C9.  Atomicity of the exhausted-dislike failure: when `suggest()` yields no
Destination, the failing `dislike()` leaves the Matcher state exactly as it was
(the raise happens while evaluating `self.suggest().name`, before any
mutation). -/
theorem dislike_exhausted_state_unchanged (m : Matcher) (h : m.suggest = none) :
    m.dislike.1 = m := by
  simp [Matcher.dislike, h]

/-- C9 witness: the failing dislike at a concrete exhausted state with a
non-trivial cursor and dislike history changes nothing. -/
theorem dislike_exhausted_state_unchanged_witness :
    mExhausted.dislike.1 = mExhausted :=
  dislike_exhausted_state_unchanged mExhausted rfl

/-- C10.  Revival by append after exhaustion: on an exhausted Matcher,
`add_suggestions` with a non-empty list appends the list, raises nothing,
preserves the cursor, and the next `suggest()` is the first newly added
element. -/
theorem add_suggestions_after_exhaustion (m : Matcher) (d : Destination)
    (l : List Destination)
    (h : m.current_index = m.destination_recommendations.length) :
    m.add_suggestions (.list (d :: l))
        = ({ m with destination_recommendations
              := m.destination_recommendations ++ (d :: l) }, none) ∧
    (m.add_suggestions (.list (d :: l))).1.current_index = m.current_index ∧
    (m.add_suggestions (.list (d :: l))).1.suggest = some d := by
  refine ⟨rfl, rfl, ?_⟩
  simp only [Matcher.add_suggestions, Matcher.suggest, h]
  rw [List.get?_append_right (Nat.le_refl _)]
  simp

/-- C10 witness: appending one destination to a concrete exhausted Matcher
makes it the current suggestion. -/
theorem add_suggestions_after_exhaustion_witness :
    (mExhausted.add_suggestions (.list [mkDest "C"])).1.suggest
      = some (mkDest "C") :=
  (add_suggestions_after_exhaustion mExhausted (mkDest "C") [] (by decide)).2.2

/-- C6.  Batch enrichment independence: when the photo lookup yields no usable
data for destination k and yields data for every other destination of the
batch, the enrichment completes for the whole batch (the lookup surfaces
failures as absence of data, so no task raises), the batch keeps its length,
exactly destination k ends with `image_url` unset, and every other destination
ends with `image_url` set to the first photo's original-resolution URL. -/
theorem batch_enrichment_independence (lookup : LocationPhotoLookup)
    (recs : List Destination) (k : Fin recs.length)
    (hk : firstPhotoUrl (lookup (recs.get k).name) = none)
    (hj : ∀ j : Fin recs.length, j ≠ k →
      (firstPhotoUrl (lookup (recs.get j).name)).isSome) :
    (fetch_recommendations_with_images_async lookup recs).length = recs.length ∧
    ((fetch_recommendations_with_images_async lookup recs).get? (k : Nat)).map
        Destination.image_url = some none ∧
    ∀ j : Fin recs.length, j ≠ k →
      ∃ u, firstPhotoUrl (lookup (recs.get j).name) = some u ∧
        ((fetch_recommendations_with_images_async lookup recs).get?
            (j : Nat)).map Destination.image_url = some (some u) := by
  refine ⟨by simp [fetch_recommendations_with_images_async], ?_, ?_⟩
  · rw [fetch_recommendations_with_images_async, List.get?_map,
      List.get?_eq_get k.isLt]
    simpa [fetch_image_image_url] using hk
  · intro j hne
    obtain ⟨u, hu⟩ := Option.isSome_iff_exists.mp (hj j hne)
    refine ⟨u, hu, ?_⟩
    rw [fetch_recommendations_with_images_async, List.get?_map,
      List.get?_eq_get j.isLt]
    simpa [fetch_image_image_url] using hu

/-- Concrete photo entry for the enrichment witness. -/
def photoW : Photo := { images := { original := { url := "img-original" } } }

/-- Concrete lookup: destination B gets a response whose data list is empty,
everyone else gets one photo. -/
def lookupW : LocationPhotoLookup := fun n =>
  if n = "B" then some { data := some [] } else some { data := some [photoW] }

/-- Concrete three-destination batch, mirroring scenario 5 of the spec. -/
def recsW : List Destination := [mkDest "A", mkDest "B", mkDest "C"]

/-- C6 witness: enriching the concrete batch leaves the middle destination
without an image. -/
theorem batch_enrichment_independence_witness :
    ((fetch_recommendations_with_images_async lookupW recsW).get? 1).map
      Destination.image_url = some none :=
  (batch_enrichment_independence lookupW recsW ⟨1, by decide⟩ (by decide)
    (by decide)).2.1

/-- Fully populated raw destination object. -/
def destinationJsonFull : DestinationJson :=
  { name := some "Lisbon"
    description := some "d"
    climate := some "c"
    activities := some []
    budget := some "b"
    travel_tips := some "t"
    best_time_to_visit := some []
    currency := some "EUR"
    language := some "pt"
    trending := some true
    transportation := some []
    image_url := some "img" }

/-- The same raw destination object with `image_url` absent. -/
def destinationJsonNoImage : DestinationJson :=
  { destinationJsonFull with image_url := none }

/-- The Destination that validating `destinationJsonFull` produces. -/
def destinationFull : Destination :=
  { name := "Lisbon"
    description := "d"
    climate := "c"
    activities := []
    budget := "b"
    travel_tips := "t"
    best_time_to_visit := []
    currency := "EUR"
    language := "pt"
    trending := true
    transportation := []
    image_url := some "img" }

/-- C7 counterexample: a Destination cannot be constructed or validated without
an `image_url` — `image_url` is a declared-required `str` field of the Pydantic
model, so validating a record that lacks it fails, and one such record makes
the whole batch validation fail. -/
theorem destination_without_image_url_rejected :
    validateDestination destinationJsonNoImage
      = Except.error "Field required" ∧
    validateBatch [destinationJsonFull, destinationJsonNoImage]
      = Except.error "Field required" := by
  exact ⟨rfl, rfl⟩

/-- C7 amended.  Destination field requiredness: validation succeeds exactly
when every declared field, `image_url` included, is present; the validated
record carries the given `image_url`; the field only becomes unset through the
later enrichment step, which overwrites it with the lookup result (a URL, or
nothing when no photo is found). -/
theorem destination_fields_required (j : DestinationJson) :
    ((validateDestination j).isOk = true ↔
      (j.name.isSome ∧ j.description.isSome ∧ j.climate.isSome ∧
        j.activities.isSome ∧ j.budget.isSome ∧ j.travel_tips.isSome ∧
        j.best_time_to_visit.isSome ∧ j.currency.isSome ∧ j.language.isSome ∧
        j.trending.isSome ∧ j.transportation.isSome ∧ j.image_url.isSome)) ∧
    (∀ d : Destination, validateDestination j = .ok d →
      d.image_url = j.image_url) ∧
    (∀ (lookup : LocationPhotoLookup) (d : Destination),
      (fetch_image lookup d).image_url = firstPhotoUrl (lookup d.name)) := by
  refine ⟨⟨?_, ?_⟩, ?_, fetch_image_image_url⟩
  · intro h
    simp only [validateDestination] at h
    obtain ⟨n, hn, h⟩ := (req_bind_isOk _ _).mp h
    obtain ⟨de, hde, h⟩ := (req_bind_isOk _ _).mp h
    obtain ⟨c, hc, h⟩ := (req_bind_isOk _ _).mp h
    obtain ⟨a, ha, h⟩ := (req_bind_isOk _ _).mp h
    obtain ⟨b, hb, h⟩ := (req_bind_isOk _ _).mp h
    obtain ⟨t, ht, h⟩ := (req_bind_isOk _ _).mp h
    obtain ⟨bt, hbt, h⟩ := (req_bind_isOk _ _).mp h
    obtain ⟨cu, hcu, h⟩ := (req_bind_isOk _ _).mp h
    obtain ⟨la, hla, h⟩ := (req_bind_isOk _ _).mp h
    obtain ⟨tr, htr, h⟩ := (req_bind_isOk _ _).mp h
    obtain ⟨tp, htp, h⟩ := (req_bind_isOk _ _).mp h
    obtain ⟨iu, hiu, _⟩ := (req_bind_isOk _ _).mp h
    simp [hn, hde, hc, ha, hb, ht, hbt, hcu, hla, htr, htp, hiu]
  · rintro ⟨hn, hde, hc, ha, hb, ht, hbt, hcu, hla, htr, htp, hiu⟩
    obtain ⟨n, hn⟩ := Option.isSome_iff_exists.mp hn
    obtain ⟨de, hde⟩ := Option.isSome_iff_exists.mp hde
    obtain ⟨c, hc⟩ := Option.isSome_iff_exists.mp hc
    obtain ⟨a, ha⟩ := Option.isSome_iff_exists.mp ha
    obtain ⟨b, hb⟩ := Option.isSome_iff_exists.mp hb
    obtain ⟨t, ht⟩ := Option.isSome_iff_exists.mp ht
    obtain ⟨bt, hbt⟩ := Option.isSome_iff_exists.mp hbt
    obtain ⟨cu, hcu⟩ := Option.isSome_iff_exists.mp hcu
    obtain ⟨la, hla⟩ := Option.isSome_iff_exists.mp hla
    obtain ⟨tr, htr⟩ := Option.isSome_iff_exists.mp htr
    obtain ⟨tp, htp⟩ := Option.isSome_iff_exists.mp htp
    obtain ⟨iu, hiu⟩ := Option.isSome_iff_exists.mp hiu
    simp [validateDestination, req, hn, hde, hc, ha, hb, ht, hbt, hcu, hla,
      htr, htp, hiu, Bind.bind, Except.bind, Except.isOk, Except.toBool,
      Pure.pure, Except.pure]
  · intro d hd
    simp only [validateDestination] at hd
    obtain ⟨n, hn, hd⟩ := (req_bind_ok _ _ _).mp hd
    obtain ⟨de, hde, hd⟩ := (req_bind_ok _ _ _).mp hd
    obtain ⟨c, hc, hd⟩ := (req_bind_ok _ _ _).mp hd
    obtain ⟨a, ha, hd⟩ := (req_bind_ok _ _ _).mp hd
    obtain ⟨b, hb, hd⟩ := (req_bind_ok _ _ _).mp hd
    obtain ⟨t, ht, hd⟩ := (req_bind_ok _ _ _).mp hd
    obtain ⟨bt, hbt, hd⟩ := (req_bind_ok _ _ _).mp hd
    obtain ⟨cu, hcu, hd⟩ := (req_bind_ok _ _ _).mp hd
    obtain ⟨la, hla, hd⟩ := (req_bind_ok _ _ _).mp hd
    obtain ⟨tr, htr, hd⟩ := (req_bind_ok _ _ _).mp hd
    obtain ⟨tp, htp, hd⟩ := (req_bind_ok _ _ _).mp hd
    obtain ⟨iu, hiu, hd⟩ := (req_bind_ok _ _ _).mp hd
    simp only [Pure.pure, Except.pure, Except.ok.injEq] at hd
    subst hd
    rw [hiu]

/-- C7 amended witness: the fully populated record validates, and the validated
Destination carries the record's `image_url`. -/
theorem destination_fields_required_witness :
    (validateDestination destinationJsonFull).isOk = true ∧
      destinationFull.image_url = destinationJsonFull.image_url :=
  ⟨(destination_fields_required destinationJsonFull).1.mpr (by decide),
    (destination_fields_required destinationJsonFull).2.1 destinationFull
      (by rfl)⟩

/-- C8.  Stage legality: assigning a value that is not a Stage member raises
`TypeError` and leaves the whole state, its stored stage included, unchanged;
assigning any Stage member succeeds, raises nothing and stores it. -/
theorem stage_legality :
    (∀ st : AppState,
      st.set_stage .notStage = (st, some PyErr.typeError) ∧
      (st.set_stage .notStage).1.stage = st.stage) ∧
    (∀ (st : AppState) (s : Stage),
      st.set_stage (.stage s) = ({ st with stage := s }, none) ∧
      (st.set_stage (.stage s)).1.stage = s) :=
  ⟨fun _ => ⟨rfl, rfl⟩, fun _ _ => ⟨rfl, rfl⟩⟩

end HolidayMatch
